import Mathlib

/-
Verification of the Arclead Entertainment worker (src/worker.js): a shallow
embedding of its router, resource handlers and storage utilities, followed by
theorems about the behaviours the specification describes.

Modelling conventions:
* JSON documents are represented by the inductive `JVal`; storing and
  re-reading a document through the bucket is the identity on `JVal`
  (JSON.stringify / JSON.parse round-trip).
* The R2 bucket is an association list from keys to objects; `list` filters by
  key prefix in stored order.
* Nondeterministic inputs of the source (generateId(), new Date().toISOString(),
  request bodies, form-data files) are explicit parameters of the handlers.
* Storage faults relevant to the claims are modelled by an oracle passed to
  `deleteArtist`: `failDelete k = true` means the delete call for key `k`
  throws.
-/

namespace Worker

/-- JSON/JS values as handled by the worker. -/
inductive JVal where
  | null
  | bool (b : Bool)
  | num (n : Int)
  | str (s : String)
  | arr (elems : List JVal)
  | obj (fields : List (String × JVal))


/-- JS property access `v.k`; `none` plays the role of `undefined`
(property access on a non-object is modelled as undefined). -/
def JVal.getProp : JVal → String → Option JVal
  | JVal.obj fields, k => (fields.find? (fun p => p.1 == k)).map (fun p => p.2)
  | _, _ => none

/-- Assign key `k` in a JS object field list: overwrite in place if the key is
present, otherwise append (JS property-assignment order semantics). -/
def setField (fields : List (String × JVal)) (k : String) (v : JVal) :
    List (String × JVal) :=
  if fields.any (fun p => p.1 == k) then
    fields.map (fun p => if p.1 == k then (k, v) else p)
  else fields ++ [(k, v)]

/-- JS property assignment `v.k = x` (a no-op on non-objects). -/
def JVal.setProp : JVal → String → JVal → JVal
  | JVal.obj fields, k, v => JVal.obj (setField fields k v)
  | j, _, _ => j

/-- Fields contributed by a value under JS object spread `{...v}`:
the fields of an object, nothing otherwise. -/
def spreadFields : JVal → List (String × JVal)
  | JVal.obj fields => fields
  | _ => []

/-- JS object spread `{...a, ...b}` on field lists: later keys overwrite. -/
def objSpread (a b : List (String × JVal)) : List (String × JVal) :=
  b.foldl (fun acc p => setField acc p.1 p.2) a

/-- JS truthiness of a value. -/
def JVal.truthy : JVal → Bool
  | JVal.null => false
  | JVal.bool b => b
  | JVal.num n => n != 0
  | JVal.str s => s != ""
  | JVal.arr _ => true
  | JVal.obj _ => true

/-- JS string coercion used by template literals; `none` is `undefined`.
(Array coercion is abbreviated; every id interpolated in the verified states
is a string.) -/
def jstrOpt : Option JVal → String
  | none => "undefined"
  | some JVal.null => "null"
  | some (JVal.bool b) => if b then "true" else "false"
  | some (JVal.num n) => toString n
  | some (JVal.str s) => s
  | some (JVal.arr _) => ""
  | some (JVal.obj _) => "[object Object]"

/-- Body of a stored R2 object: a JSON document (stored as its text) or raw
uploaded bytes. -/
inductive R2Body where
  | jsonDoc (v : JVal)
  | bytes (data : List Nat)


/-- A stored R2 object: body plus the contentType of its httpMetadata. -/
structure R2Obj where
  body : R2Body
  contentType : String


/-- The R2 bucket: keyed objects in storage order. -/
structure Bucket where
  objects : List (String × R2Obj)


/-- Does list `s` start with list `p`? -/
def listStartsWith : List Char → List Char → Bool
  | _, [] => true
  | [], _ :: _ => false
  | c :: s2, d :: p2 => c == d && listStartsWith s2 p2

/-- Does string `s` start with string `p`? -/
def strStartsWith (s p : String) : Bool :=
  listStartsWith s.data p.data

/-- Lookup of a key in an association list of stored objects. -/
def lookupList (l : List (String × R2Obj)) (key : String) : Option R2Obj :=
  (l.find? (fun p => p.1 == key)).map (fun p => p.2)

/-- bucket.get(key). -/
def Bucket.get (b : Bucket) (key : String) : Option R2Obj :=
  lookupList b.objects key

/-- bucket.put(key, value, metadata): overwrite the key. -/
def Bucket.put (b : Bucket) (key : String) (o : R2Obj) : Bucket :=
  Bucket.mk ((b.objects.filter (fun p => !(p.1 == key))) ++ [(key, o)])

/-- bucket.delete(key). -/
def Bucket.delete (b : Bucket) (key : String) : Bucket :=
  Bucket.mk (b.objects.filter (fun p => !(p.1 == key)))

/-- bucket.list({ prefix }): the stored objects whose key starts with `pfx`. -/
def Bucket.list (b : Bucket) (pfx : String) : List (String × R2Obj) :=
  b.objects.filter (fun p => strStartsWith p.1 pfx)

/-- Outcome of reading a key as JSON text: absent, a parsed document, or text
that is not JSON (JSON.parse throws in the caller). -/
inductive ReadResult where
  | missing
  | doc (v : JVal)
  | notJson


/-- getR2Object followed by the caller's JSON.parse: null when the object is
absent, the document when it holds JSON, a parse error otherwise. -/
def getR2Object (b : Bucket) (key : String) : ReadResult :=
  match Bucket.get b key with
  | none => ReadResult.missing
  | some o =>
    match o.body with
    | R2Body.jsonDoc v => ReadResult.doc v
    | R2Body.bytes _ => ReadResult.notJson

/-- putR2Object: store a JSON document with contentType application/json. -/
def putR2Object (b : Bucket) (key : String) (v : JVal) : Bucket :=
  Bucket.put b key (R2Obj.mk (R2Body.jsonDoc v) "application/json")

/-- deleteR2Object. -/
def deleteR2Object (b : Bucket) (key : String) : Bucket :=
  Bucket.delete b key

/-- getR2ObjectUrl: the fixed-domain placeholder URL. -/
def getR2ObjectUrl (key : String) : String :=
  "https://your-r2-domain.com/" ++ key

/-- Key of the denormalized main photo of an artist. -/
def mainPhotoKey (artistId : String) : String :=
  "artists/" ++ artistId ++ "/main.jpg"

/-- Key of the per-artist filmography document. -/
def filmographyKey (artistId : String) : String :=
  "data/filmography/" ++ artistId ++ ".json"

/-- getMainPhotoUrl: the placeholder URL when the main photo object exists. -/
def getMainPhotoUrl (b : Bucket) (artistId : String) : Option String :=
  match Bucket.get b (mainPhotoKey artistId) with
  | some _ => some (getR2ObjectUrl (mainPhotoKey artistId))
  | none => none

/-- An HTTP response: status and JSON body. -/
structure ApiResponse where
  status : Nat
  body : JVal


/-- A 200 JSON response. -/
def okJson (v : JVal) : ApiResponse := ApiResponse.mk 200 v

/-- An error response with `{error: msg}` body. -/
def errJson (status : Nat) (msg : String) : ApiResponse :=
  ApiResponse.mk status (JVal.obj [("error", JVal.str msg)])

/-- The `{success: true}` body. -/
def successBody : JVal := JVal.obj [("success", JVal.bool true)]

/-! ## Router

`handleApiRequest` walks the route table in order.  For each entry it splits
the pattern into method and path, substitutes the capture placeholders by the
single-segment wildcard with `routePath.replace` under the GREEDY regex
`\(.+\)`, anchors the result, and matches the request path.  The greedy
substitution is embedded exactly: one match runs from the first opening
parenthesis to the LAST closing parenthesis of the remaining pattern. -/

/-- JS `s.split(sep)` for a single-character separator. -/
def splitCharList (sep : Char) : List Char → List (List Char)
  | [] => [[]]
  | c :: rest =>
    let r := splitCharList sep rest
    if c = sep then [] :: r
    else
      match r with
      | [] => [[c]]
      | g :: gs => (c :: g) :: gs

/-- JS `s.split(sep)` on strings. -/
def jsSplit (s : String) (sep : Char) : List String :=
  (splitCharList sep s.data).map String.mk

/-- Index of the last closing parenthesis at position at least 2 of the list
(so that the greedy `\(.+\)` starting at position 0 has a nonempty body). -/
def lastRParen (l : List Char) : Option Nat :=
  ((List.range l.length).filter
    (fun i => decide (2 ≤ i ∧ l.get? i = some (Char.ofNat 41)))).getLast?

/-- One step of JS `routePath.replace(/\(.+\)/g, "([^/]+)")`: scan for an
opening parenthesis; a match extends greedily to the last closing parenthesis
and is replaced by the wildcard group; then scanning continues after it.  The
fuel argument (instantiated with the length of the list, an upper bound on the
number of steps) only makes the recursion structural. -/
def replaceParenGroupsF (wildcard : List Char) : Nat → List Char → List Char
  | 0, s => s
  | fuel + 1, s =>
    match s with
    | [] => []
    | c :: rest =>
      if c = Char.ofNat 40 then
        match lastRParen (c :: rest) with
        | some j => wildcard ++ replaceParenGroupsF wildcard fuel ((c :: rest).drop (j + 1))
        | none => c :: replaceParenGroupsF wildcard fuel rest
      else c :: replaceParenGroupsF wildcard fuel rest

/-- The text substituted for each capture placeholder. -/
def wildToken : List Char := "([^/]+)".data

/-- JS `routePath.replace(/\(.+\)/g, "([^/]+)")`. -/
def replaceParenGroups (s : List Char) : List Char :=
  replaceParenGroupsF wildToken s.length s

/-- A piece of a compiled route regex: a literal character or the
single-segment wildcard group `([^/]+)`. -/
inductive Piece where
  | lit (c : Char)
  | wild

/-- Read the substituted pattern back as literal characters interspersed with
wildcard groups (the route literals contain no other regex syntax).  Fuel is
the length of the list. -/
def parsePatternF : Nat → List Char → List Piece
  | 0, _ => []
  | fuel + 1, s =>
    match s with
    | [] => []
    | c :: rest =>
      if (c :: rest).take 7 = wildToken then
        Piece.wild :: parsePatternF fuel ((c :: rest).drop 7)
      else Piece.lit c :: parsePatternF fuel rest

/-- Compile the substituted pattern into pieces. -/
def parsePattern (s : List Char) : List Piece :=
  parsePatternF s.length s

/-- Match the anchored regex `^pieces$` against a path, with the standard
greedy-with-backtracking semantics of `[^/]+` (longest candidate segment
first); returns the ordered capture values. -/
def matchPieces : List Piece → List Char → Option (List (List Char))
  | [], s => if s.isEmpty then some [] else none
  | Piece.lit c :: ps, s =>
    match s with
    | [] => none
    | d :: s2 => if d = c then matchPieces ps s2 else none
  | Piece.wild :: ps, s =>
    let maxLen := (s.takeWhile (fun c => c != Char.ofNat 47)).length
    ((List.range maxLen).reverse.filterMap
      (fun i => (matchPieces ps (s.drop (i + 1))).map
        (fun caps => s.take (i + 1) :: caps))).head?

/-- Match a route path pattern against a request path: substitute the
placeholders, compile, run the regex; ordered captures on success. -/
def matchRoute (routePath path : String) : Option (List String) :=
  (matchPieces (parsePattern (replaceParenGroups routePath.data)) path.data).map
    (fun caps => caps.map String.mk)

/-- The handler invocation a request is dispatched to, with its positional
path parameters (`none` plays the role of an undefined argument). -/
inductive RouteCall where
  | getArtistsCall
  | createArtistCall
  | getArtistCall (artistId : Option String)
  | updateArtistCall (artistId : Option String)
  | deleteArtistCall (artistId : Option String)
  | getArtistPhotosCall (artistId : Option String)
  | uploadPhotoCall (artistId : Option String)
  | deletePhotoCall (artistId : Option String) (photoId : Option String)
  | setMainPhotoCall (artistId : Option String)
  | getFilmographyCall (artistId : Option String)
  | updateFilmographyCall (artistId : Option String)
  | exportArtistsDataCall
  | exportFilmographyDataCall
  | notFound
deriving DecidableEq

/-- The route table, in source order. -/
def routes : List (String × (List String → RouteCall)) :=
  [("GET /api/artists", fun _ => RouteCall.getArtistsCall),
   ("POST /api/artists", fun _ => RouteCall.createArtistCall),
   ("GET /api/artists/(.+)", fun ps => RouteCall.getArtistCall (ps.get? 0)),
   ("PUT /api/artists/(.+)", fun ps => RouteCall.updateArtistCall (ps.get? 0)),
   ("DELETE /api/artists/(.+)", fun ps => RouteCall.deleteArtistCall (ps.get? 0)),
   ("GET /api/artists/(.+)/photos", fun ps => RouteCall.getArtistPhotosCall (ps.get? 0)),
   ("POST /api/artists/(.+)/photos", fun ps => RouteCall.uploadPhotoCall (ps.get? 0)),
   ("DELETE /api/artists/(.+)/photos/(.+)",
     fun ps => RouteCall.deletePhotoCall (ps.get? 0) (ps.get? 1)),
   ("PUT /api/artists/(.+)/main-photo", fun ps => RouteCall.setMainPhotoCall (ps.get? 0)),
   ("GET /api/artists/(.+)/filmography", fun ps => RouteCall.getFilmographyCall (ps.get? 0)),
   ("PUT /api/artists/(.+)/filmography", fun ps => RouteCall.updateFilmographyCall (ps.get? 0)),
   ("GET /api/export/artists", fun _ => RouteCall.exportArtistsDataCall),
   ("GET /api/export/filmography", fun _ => RouteCall.exportFilmographyDataCall)]

/-- Walk the route table: first entry whose method equals the request method
and whose compiled pattern matches the path wins; otherwise the 404 branch. -/
def dispatch : List (String × (List String → RouteCall)) → String → String → RouteCall
  | [], _, _ => RouteCall.notFound
  | (pat, h) :: rest, method, path =>
    let parts := jsSplit pat (Char.ofNat 32)
    let routeMethod := parts.headD ""
    let routePath := (parts.drop 1).headD ""
    if method = routeMethod then
      match matchRoute routePath path with
      | some params => h params
      | none => dispatch rest method path
    else dispatch rest method path

/-- handleApiRequest, restricted to its routing outcome. -/
def handleApiRequest (method path : String) : RouteCall :=
  dispatch routes method path

/-! ## Resource handlers

Each handler takes the bucket plus the request-dependent inputs and returns
the response together with the bucket after its writes.  A document whose
shape the handler cannot traverse (a non-array collection, a photo blob at a
JSON key) lands in the handler's catch branch, modelled as its 500 response. -/

/-- JS `a.id === artistId`: true exactly when the id property is that
string (strict equality of a string with undefined or a non-string is
false). -/
def idMatches (a : JVal) (artistId : String) : Bool :=
  match JVal.getProp a "id" with
  | some (JVal.str s) => s == artistId
  | _ => false

/-- JS `Array.prototype.findIndex`: the index of the first hit, `-1` when
there is none. -/
def jsFindIndex (p : JVal → Bool) : List JVal → Int
  | [] => -1
  | a :: rest =>
    if p a then 0
    else
      let r := jsFindIndex p rest
      if r = -1 then -1 else r + 1

/-- The per-artist step of getArtists: attach the main-photo URL when the
main-photo object exists. -/
def attachMainPhoto (b : Bucket) (a : JVal) : JVal :=
  match getMainPhotoUrl b (jstrOpt (JVal.getProp a "id")) with
  | some url => JVal.setProp a "mainPhoto" (JVal.str url)
  | none => a

/-- getArtists: read the collection (absent means the empty list), attach
main-photo URLs, answer 200 with the list.  The bucket is not written. -/
def getArtists (b : Bucket) : ApiResponse × Bucket :=
  match getR2Object b "data/artists.json" with
  | ReadResult.missing => (okJson (JVal.arr []), b)
  | ReadResult.doc (JVal.arr artists) =>
    (okJson (JVal.arr (artists.map (attachMainPhoto b))), b)
  | _ => (errJson 500 "Failed to get artists", b)

/-- createArtist: build the new record, re-read the current list through
getArtists (its response body, not the stored document), append, write back,
optionally write an initial filmography document, answer with the new id.
`artistId` is the generated id and `now` the ISO timestamp. -/
def createArtist (b : Bucket) (artistData : JVal) (artistId : String) (now : String) :
    ApiResponse × Bucket :=
  let newArtist : JVal := JVal.obj
    [("id", JVal.str artistId),
     ("name", (JVal.getProp artistData "name").getD JVal.null),
     ("createdAt", JVal.str now),
     ("updatedAt", JVal.str now)]
  match (getArtists b).1.body with
  | JVal.arr existingArtists =>
    let b1 := putR2Object b "data/artists.json" (JVal.arr (existingArtists ++ [newArtist]))
    let b2 :=
      match JVal.getProp artistData "filmography" with
      | some f =>
        if JVal.truthy f then putR2Object b1 (filmographyKey artistId) f else b1
      | none => b1
    (okJson (JVal.obj [("success", JVal.bool true), ("artistId", JVal.str artistId)]), b2)
  | _ => (errJson 500 "Failed to create artist", b)

/-- Body of updateArtist once the collection has been read. -/
def updateArtistCore (b : Bucket) (artistId : String) (updateData : JVal) (now : String)
    (artists : List JVal) : ApiResponse × Bucket :=
  let artistIndex := jsFindIndex (fun a => idMatches a artistId) artists
  if artistIndex = -1 then (errJson 404 "Artist not found", b)
  else
    let old := artists.getD artistIndex.toNat JVal.null
    let merged := JVal.obj
      (setField (objSpread (spreadFields old) (spreadFields updateData))
        "updatedAt" (JVal.str now))
    let b1 := putR2Object b "data/artists.json" (JVal.arr (artists.set artistIndex.toNat merged))
    let b2 :=
      match JVal.getProp updateData "filmography" with
      | some f =>
        if JVal.truthy f then putR2Object b1 (filmographyKey artistId) f else b1
      | none => b1
    (okJson successBody, b2)

/-- updateArtist: read the collection, find the index of the id (404 when
absent, before any write), shallow-merge the update over the record, refresh
updatedAt, write back; overwrite the filmography document when supplied. -/
def updateArtist (b : Bucket) (artistId : String) (updateData : JVal) (now : String) :
    ApiResponse × Bucket :=
  match getR2Object b "data/artists.json" with
  | ReadResult.doc (JVal.arr artists) => updateArtistCore b artistId updateData now artists
  | ReadResult.doc _ => (errJson 500 "Failed to update artist", b)
  | ReadResult.missing => updateArtistCore b artistId updateData now []
  | ReadResult.notJson => (errJson 500 "Failed to update artist", b)

/-- The photo-cleanup loop of deleteArtist: delete the listed keys in order;
a throwing delete (the failDelete oracle) aborts the loop and is swallowed by
the inner catch. -/
def deletePhotosLoop (failDelete : String → Bool) : Bucket → List String → Bucket
  | b, [] => b
  | b, k :: rest =>
    if failDelete k then b else deletePhotosLoop failDelete (Bucket.delete b k) rest

/-- Body of deleteArtist once the collection has been read.  The filmography
delete sits OUTSIDE the inner try of the source: when it throws, control
reaches the outer catch, with the collection already written back. -/
def deleteArtistCore (failDelete : String → Bool) (b : Bucket) (artistId : String)
    (artists : List JVal) : ApiResponse × Bucket :=
  let filteredArtists := artists.filter (fun a => !(idMatches a artistId))
  let b1 := putR2Object b "data/artists.json" (JVal.arr filteredArtists)
  if failDelete (filmographyKey artistId) then
    (errJson 500 "Failed to delete artist", b1)
  else
    let b2 := deleteR2Object b1 (filmographyKey artistId)
    let keys := (Bucket.list b2 ("artists/" ++ artistId ++ "/")).map (fun p => p.1)
    (okJson successBody, deletePhotosLoop failDelete b2 keys)

/-- deleteArtist: filter the id out of the collection, write back, delete the
filmography document, then best-effort delete everything under the artist
folder. -/
def deleteArtist (failDelete : String → Bool) (b : Bucket) (artistId : String) :
    ApiResponse × Bucket :=
  match getR2Object b "data/artists.json" with
  | ReadResult.doc (JVal.arr artists) => deleteArtistCore failDelete b artistId artists
  | ReadResult.doc _ => (errJson 500 "Failed to delete artist", b)
  | ReadResult.missing => deleteArtistCore failDelete b artistId []
  | ReadResult.notJson => (errJson 500 "Failed to delete artist", b)

/-- An uploaded form-data file: filename, MIME type, content bytes. -/
structure UploadedFile where
  name : String
  type : String
  content : List Nat

/-- JS `photo.name.split(".").pop() || "jpg"`: the text after the last dot;
the default applies exactly when that text is empty (empty name or a name
ending in a dot) — a dotless name yields the name itself. -/
def fileExtensionOf (name : String) : String :=
  let e := (jsSplit name (Char.ofNat 46)).getLastD ""
  if e = "" then "jpg" else e

/-- The storage key of an uploaded photo. -/
def photoKey (artistId photoId ext : String) : String :=
  "artists/" ++ artistId ++ "/photos/" ++ photoId ++ "." ++ ext

/-- uploadPhoto: 400 without a file field (and no write); otherwise store the
bytes under the photo key with the file's MIME type as contentType and answer
with the generated id and the constructed URL. -/
def uploadPhoto (b : Bucket) (artistId : String) (photo : Option UploadedFile)
    (photoId : String) : ApiResponse × Bucket :=
  match photo with
  | none => (errJson 400 "No photo provided", b)
  | some f =>
    let key := photoKey artistId photoId (fileExtensionOf f.name)
    let b1 := Bucket.put b key (R2Obj.mk (R2Body.bytes f.content) f.type)
    (okJson (JVal.obj
      [("success", JVal.bool true),
       ("photoId", JVal.str photoId),
       ("url", JVal.str (getR2ObjectUrl key))]), b1)

/-- setMainPhoto: list by the artist+photo-id key prefix; 404 when nothing
matches, otherwise duplicate body and httpMetadata of the first match to the
fixed `main.jpg` key. -/
def setMainPhoto (b : Bucket) (artistId photoId : String) : ApiResponse × Bucket :=
  let photosList := Bucket.list b ("artists/" ++ artistId ++ "/photos/" ++ photoId)
  match photosList with
  | [] => (errJson 404 "Photo not found", b)
  | first :: _ =>
    match Bucket.get b first.1 with
    | none => (errJson 404 "Photo not found", b)
    | some sourceObject =>
      (okJson successBody,
       Bucket.put b (mainPhotoKey artistId)
         (R2Obj.mk sourceObject.body sourceObject.contentType))

/-- The structurally empty filmography default. -/
def emptyFilmography : JVal :=
  JVal.obj [("dramas", JVal.arr []), ("movies", JVal.arr []), ("commercials", JVal.arr [])]

/-- getFilmography: the stored document, or the empty default when absent. -/
def getFilmography (b : Bucket) (artistId : String) : ApiResponse × Bucket :=
  match getR2Object b (filmographyKey artistId) with
  | ReadResult.doc v => (okJson v, b)
  | ReadResult.missing => (okJson emptyFilmography, b)
  | ReadResult.notJson => (errJson 500 "Failed to get filmography", b)

/-- updateFilmography: overwrite the stored document with the request body,
unconditionally. -/
def updateFilmography (b : Bucket) (artistId : String) (filmographyData : JVal) :
    ApiResponse × Bucket :=
  (okJson successBody, putR2Object b (filmographyKey artistId) filmographyData)

/-! ## Storage lemmas -/

theorem lookupList_cons (p : String × R2Obj) (tl : List (String × R2Obj)) (k : String) :
    lookupList (p :: tl) k = if p.1 == k then some p.2 else lookupList tl k := by
  simp only [lookupList, List.find?]
  cases hpk : p.1 == k <;> simp

theorem lookupList_filter_append_self (l : List (String × R2Obj)) (k : String) (o : R2Obj) :
    lookupList (l.filter (fun p => !(p.1 == k)) ++ [(k, o)]) k = some o := by
  induction l with
  | nil => simp [lookupList_cons]
  | cons p tl ih =>
    rw [List.filter_cons]
    by_cases hp : p.1 = k
    · rw [if_neg (by simp [hp])]
      exact ih
    · rw [if_pos (by simp [hp]), List.cons_append, lookupList_cons,
        if_neg (by simp [hp])]
      exact ih

theorem lookupList_filter_append_ne (l : List (String × R2Obj)) (k k2 : String) (o : R2Obj)
    (h : k ≠ k2) :
    lookupList (l.filter (fun p => !(p.1 == k2)) ++ [(k2, o)]) k = lookupList l k := by
  induction l with
  | nil =>
    simp [lookupList_cons, lookupList, beq_eq_false_iff_ne.mpr (Ne.symm h)]
  | cons p tl ih =>
    rw [List.filter_cons]
    by_cases hp : p.1 = k2
    · rw [if_neg (by simp [hp])]
      rw [lookupList_cons, if_neg (by simp [hp, Ne.symm h])]
      exact ih
    · rw [if_pos (by simp [hp]), List.cons_append, lookupList_cons, lookupList_cons]
      by_cases hk : p.1 = k
      · rw [if_pos (by simp [hk]), if_pos (by simp [hk])]
      · rw [if_neg (by simp [hk]), if_neg (by simp [hk])]
        exact ih

theorem lookupList_filter_ne (l : List (String × R2Obj)) (k k2 : String) (h : k ≠ k2) :
    lookupList (l.filter (fun p => !(p.1 == k2))) k = lookupList l k := by
  induction l with
  | nil => simp [lookupList]
  | cons p tl ih =>
    rw [List.filter_cons]
    by_cases hp : p.1 = k2
    · rw [if_neg (by simp [hp])]
      rw [lookupList_cons, if_neg (by simp [hp, Ne.symm h])]
      exact ih
    · rw [if_pos (by simp [hp]), lookupList_cons, lookupList_cons]
      by_cases hk : p.1 = k
      · rw [if_pos (by simp [hk]), if_pos (by simp [hk])]
      · rw [if_neg (by simp [hk]), if_neg (by simp [hk])]
        exact ih

theorem Bucket.get_put_self (b : Bucket) (k : String) (o : R2Obj) :
    Bucket.get (Bucket.put b k o) k = some o :=
  lookupList_filter_append_self b.objects k o

theorem Bucket.get_put_ne (b : Bucket) (k k2 : String) (o : R2Obj) (h : k ≠ k2) :
    Bucket.get (Bucket.put b k2 o) k = Bucket.get b k :=
  lookupList_filter_append_ne b.objects k k2 o h

theorem Bucket.get_delete_ne (b : Bucket) (k k2 : String) (h : k ≠ k2) :
    Bucket.get (Bucket.delete b k2) k = Bucket.get b k :=
  lookupList_filter_ne b.objects k k2 h

theorem getR2Object_put_self (b : Bucket) (k : String) (v : JVal) :
    getR2Object (putR2Object b k v) k = ReadResult.doc v := by
  simp [getR2Object, putR2Object, Bucket.get_put_self]

theorem getR2Object_put_ne (b : Bucket) (k k2 : String) (v : JVal) (h : k ≠ k2) :
    getR2Object (putR2Object b k2 v) k = getR2Object b k := by
  simp [getR2Object, putR2Object, Bucket.get_put_ne b k k2 _ h]

theorem getR2Object_delete_ne (b : Bucket) (k k2 : String) (h : k ≠ k2) :
    getR2Object (Bucket.delete b k2) k = getR2Object b k := by
  simp [getR2Object, Bucket.get_delete_ne b k k2 h]

theorem get_deletePhotosLoop_ne (failDelete : String → Bool) (keys : List String)
    (b : Bucket) (k : String) (h : ∀ x ∈ keys, x ≠ k) :
    Bucket.get (deletePhotosLoop failDelete b keys) k = Bucket.get b k := by
  induction keys generalizing b with
  | nil => rfl
  | cons x rest ih =>
    by_cases hf : failDelete x = true
    · simp [deletePhotosLoop, hf]
    · rw [show deletePhotosLoop failDelete b (x :: rest)
          = deletePhotosLoop failDelete (Bucket.delete b x) rest by
        simp [deletePhotosLoop, hf]]
      rw [ih _ (fun y hy => h y (List.mem_cons_of_mem x hy))]
      exact Bucket.get_delete_ne b k x (fun he => h x (List.mem_cons_self x rest) he.symm)

/-! ## String-key disjointness -/

theorem strData_append (s t : String) : (s ++ t).data = s.data ++ t.data := rfl

theorem strLength_data (s : String) : s.length = s.data.length := by
  cases s
  rfl

theorem strLength_append (s t : String) : (s ++ t).length = s.length + t.length := by
  rw [strLength_data, strLength_data, strLength_data, strData_append, List.length_append]

theorem filmographyKey_ne_artistsJson (artistId : String) :
    filmographyKey artistId ≠ "data/artists.json" := by
  intro h
  have hl := congrArg String.length h
  rw [filmographyKey] at hl
  rw [strLength_append, strLength_append] at hl
  rw [show ("data/filmography/" : String).length = 17 by decide,
    show (".json" : String).length = 5 by decide,
    show ("data/artists.json" : String).length = 17 by decide] at hl
  omega

theorem listStartsWith_cons_ne (c d : Char) (s p : List Char) (h : c ≠ d) :
    listStartsWith (c :: s) (d :: p) = false := by
  simp [listStartsWith, beq_eq_false_iff_ne.mpr h]

theorem artistsJson_not_in_artist_folder (artistId : String) :
    strStartsWith "data/artists.json" ("artists/" ++ artistId ++ "/") = false := by
  have hdata : ("artists/" ++ artistId ++ "/").data
      = 'a' :: ("rtists/".data ++ artistId.data ++ "/".data) := by
    rw [strData_append, strData_append]
    simp [show ("artists/" : String).data = 'a' :: "rtists/".data from rfl]
  show listStartsWith ("data/artists.json").data ("artists/" ++ artistId ++ "/").data = false
  rw [hdata, show ("data/artists.json").data = 'd' :: "ata/artists.json".data from rfl]
  exact listStartsWith_cons_ne _ _ _ _ (by decide)

/-! ## List helper lemmas -/

theorem jsFindIndex_of_none (p : JVal → Bool) (l : List JVal)
    (h : ∀ a ∈ l, p a = false) : jsFindIndex p l = -1 := by
  induction l with
  | nil => rfl
  | cons a rest ih =>
    simp only [jsFindIndex, h a (List.mem_cons_self a rest)]
    rw [ih (fun x hx => h x (List.mem_cons_of_mem a hx))]
    simp

theorem filter_of_all_true (p : JVal → Bool) (l : List JVal)
    (h : ∀ a ∈ l, p a = true) : l.filter p = l := by
  induction l with
  | nil => rfl
  | cons a rest ih =>
    simp only [List.filter, h a (List.mem_cons_self a rest)]
    rw [ih (fun x hx => h x (List.mem_cons_of_mem a hx))]

theorem mem_bucketList_startsWith (b : Bucket) (pfx : String) (x : String × R2Obj)
    (h : x ∈ Bucket.list b pfx) : strStartsWith x.1 pfx = true :=
  (List.mem_filter.mp h).2

theorem lookup_head_of_filter (l : List (String × R2Obj)) (pfx : String)
    (o : String × R2Obj) (rest : List (String × R2Obj))
    (h : l.filter (fun p => strStartsWith p.1 pfx) = o :: rest) :
    lookupList l o.1 = some o.2 := by
  induction l with
  | nil => simp at h
  | cons p tl ih =>
    rw [List.filter_cons] at h
    by_cases hp : strStartsWith p.1 pfx = true
    · rw [if_pos hp] at h
      injection h with h1 h2
      rw [← h1, lookupList_cons, if_pos (beq_self_eq_true p.1)]
    · rw [if_neg hp] at h
      have ho : strStartsWith o.1 pfx = true := by
        have hm : o ∈ tl.filter (fun p => strStartsWith p.1 pfx) := by
          rw [h]; exact List.mem_cons_self o rest
        exact (List.mem_filter.mp hm).2
      have hne : (p.1 == o.1) = false := by
        refine beq_eq_false_iff_ne.mpr (fun he => hp ?_)
        rw [he]; exact ho
      rw [lookupList_cons, if_neg (by simp [hne])]
      exact ih h

/-! ## Claims -/

/-- C1: the routing contract breaks on the only two-capture route.  The
source substitutes placeholders with the GREEDY regex `\(.+\)`, so in
`DELETE /api/artists/(.+)/photos/(.+)` one match spans from the first to the
last parenthesis and the compiled pattern collapses to
`^/api/artists/([^/]+)$`; a DELETE photo request therefore matches no route
and receives the 404 body instead of dispatching to deletePhoto with both
captures (single-capture routes and the unmatched-route 404 do behave as
described). -/
theorem C1_delete_photo_route_unreachable :
    handleApiRequest "DELETE" "/api/artists/a1/photos/p1" = RouteCall.notFound ∧
    String.mk (replaceParenGroups ("DELETE /api/artists/(.+)/photos/(.+)".drop 7).data)
      = "/api/artists/([^/]+)" ∧
    handleApiRequest "DELETE" "/api/artists/a1" = RouteCall.deleteArtistCall (some "a1") ∧
    handleApiRequest "GET" "/api/artists/a1/filmography"
      = RouteCall.getFilmographyCall (some "a1") ∧
    handleApiRequest "GET" "/api/unknown" = RouteCall.notFound := by
  decide

/-- C3: a filmography PUT overwrites the stored document unconditionally, so
a GET right after returns a document structurally identical to the request
body, whatever was stored before. -/
theorem C3_filmography_put_get_roundtrip (b : Bucket) (artistId : String) (d : JVal) :
    (getFilmography (updateFilmography b artistId d).2 artistId).1 = okJson d ∧
    (updateFilmography b artistId d).1 = okJson successBody := by
  constructor
  · show (getFilmography (putR2Object b (filmographyKey artistId) d) artistId).1 = okJson d
    simp [getFilmography, getR2Object_put_self]
  · rfl

/-- C6: a photo upload without the file field answers 400 with an error body
and writes nothing: the bucket is returned unchanged. -/
theorem C6_uploadPhoto_without_file (b : Bucket) (artistId photoId : String) :
    uploadPhoto b artistId none photoId = (errJson 400 "No photo provided", b) := rfl

/-- C7: when the per-artist filmography document is absent, getFilmography
answers 200 with the structurally empty default. -/
theorem C7_getFilmography_absent_default (b : Bucket) (artistId : String)
    (habsent : Bucket.get b (filmographyKey artistId) = none) :
    getFilmography b artistId = (okJson emptyFilmography, b) ∧
    (getFilmography b artistId).1.status = 200 := by
  have hr : getR2Object b (filmographyKey artistId) = ReadResult.missing := by
    simp [getR2Object, habsent]
  constructor
  · simp [getFilmography, hr]
  · simp [getFilmography, hr, okJson]

theorem C7_getFilmography_absent_default_witness :
    getFilmography (Bucket.mk []) "a" = (okJson emptyFilmography, Bucket.mk []) ∧
    (getFilmography (Bucket.mk []) "a").1.status = 200 :=
  C7_getFilmography_absent_default (Bucket.mk []) "a" rfl

/-- C2: updating an artist id that is in no record of the stored collection
answers 404 and performs no storage write: the whole bucket, hence the stored
collection document, is unchanged. -/
theorem C2_updateArtist_unknown_id_404_no_write (b : Bucket) (artistId : String)
    (updateData : JVal) (now : String) (artists : List JVal)
    (hdoc : getR2Object b "data/artists.json" = ReadResult.doc (JVal.arr artists))
    (habsent : ∀ a ∈ artists, idMatches a artistId = false) :
    (updateArtist b artistId updateData now).1.status = 404 ∧
    (updateArtist b artistId updateData now).2 = b := by
  have hidx : jsFindIndex (fun a => idMatches a artistId) artists = -1 :=
    jsFindIndex_of_none _ _ habsent
  constructor <;> simp [updateArtist, hdoc, updateArtistCore, hidx, errJson]

def C2bucket : Bucket :=
  Bucket.mk [("data/artists.json",
    R2Obj.mk (R2Body.jsonDoc (JVal.arr [JVal.obj [("id", JVal.str "a"), ("name", JVal.str "Kim")]]))
      "application/json")]

theorem artistFolder_keys_ne_artistsJson (b : Bucket) (artistId : String) :
    ∀ x ∈ (Bucket.list b ("artists/" ++ artistId ++ "/")).map (fun p => p.1),
      x ≠ "data/artists.json" := by
  intro x hx he
  obtain ⟨p, hp, hpx⟩ := List.mem_map.mp hx
  have hsw := mem_bucketList_startsWith b _ p hp
  rw [hpx, he] at hsw
  have hfa := artistsJson_not_in_artist_folder artistId
  rw [hsw] at hfa
  exact absurd hfa (by decide)

theorem Bucket.get_putR2Object_self (b : Bucket) (k : String) (v : JVal) :
    Bucket.get (putR2Object b k v) k
      = some (R2Obj.mk (R2Body.jsonDoc v) "application/json") :=
  Bucket.get_put_self b k _

/-- When the filmography delete does not throw, deleteArtistCore succeeds and
the artists document of the final bucket is the filtered collection (the
later best-effort deletes never touch `data/artists.json`). -/
theorem deleteArtistCore_ok (failDelete : String → Bool) (b : Bucket) (artistId : String)
    (artists : List JVal) (hfilm : failDelete (filmographyKey artistId) = false) :
    (deleteArtistCore failDelete b artistId artists).1 = okJson successBody ∧
    getR2Object (deleteArtistCore failDelete b artistId artists).2 "data/artists.json"
      = ReadResult.doc (JVal.arr (artists.filter (fun a => !(idMatches a artistId)))) := by
  have hget : Bucket.get (deleteArtistCore failDelete b artistId artists).2 "data/artists.json"
      = some (R2Obj.mk (R2Body.jsonDoc
          (JVal.arr (artists.filter (fun a => !(idMatches a artistId))))) "application/json") := by
    simp only [deleteArtistCore, hfilm, Bool.false_eq_true, if_false]
    rw [get_deletePhotosLoop_ne _ _ _ _ (artistFolder_keys_ne_artistsJson _ artistId)]
    rw [deleteR2Object, Bucket.get_delete_ne _ _ _
      (Ne.symm (filmographyKey_ne_artistsJson artistId))]
    exact Bucket.get_putR2Object_self _ _ _
  constructor
  · simp [deleteArtistCore, hfilm]
  · simp [getR2Object, hget]

/-- When the filmography delete throws, the outer catch turns deleteArtist
into a 500 — with the filtered collection already written back. -/
theorem deleteArtistCore_filmography_fail (failDelete : String → Bool) (b : Bucket)
    (artistId : String) (artists : List JVal)
    (hfilm : failDelete (filmographyKey artistId) = true) :
    (deleteArtistCore failDelete b artistId artists).1
      = errJson 500 "Failed to delete artist" ∧
    getR2Object (deleteArtistCore failDelete b artistId artists).2 "data/artists.json"
      = ReadResult.doc (JVal.arr (artists.filter (fun a => !(idMatches a artistId)))) := by
  constructor
  · simp [deleteArtistCore, hfilm]
  · simp only [deleteArtistCore, hfilm, if_true]
    simp [getR2Object, Bucket.get_putR2Object_self]

theorem deleteArtist_eq_core (failDelete : String → Bool) (b : Bucket) (artistId : String)
    (artists : List JVal)
    (hdoc : getR2Object b "data/artists.json" = ReadResult.doc (JVal.arr artists)) :
    deleteArtist failDelete b artistId = deleteArtistCore failDelete b artistId artists := by
  simp [deleteArtist, hdoc]

/-- C4 (corrected): only the photo-folder cleanup is swallowed.  Whatever the
delete oracle does under the artist's photo folder, deleteArtist still answers
with the success body as long as the filmography delete goes through; but when
the filmography delete throws, the request fails with a 500 (after the
filtered collection was already written back). -/
theorem C4_cleanup_error_propagation (failDelete : String → Bool) (b : Bucket)
    (artistId : String) (artists : List JVal)
    (hdoc : getR2Object b "data/artists.json" = ReadResult.doc (JVal.arr artists)) :
    (failDelete (filmographyKey artistId) = false →
      (deleteArtist failDelete b artistId).1 = okJson successBody) ∧
    (failDelete (filmographyKey artistId) = true →
      (deleteArtist failDelete b artistId).1 = errJson 500 "Failed to delete artist" ∧
      getR2Object (deleteArtist failDelete b artistId).2 "data/artists.json"
        = ReadResult.doc (JVal.arr (artists.filter (fun a => !(idMatches a artistId))))) := by
  rw [deleteArtist_eq_core failDelete b artistId artists hdoc]
  exact ⟨fun hfilm => (deleteArtistCore_ok failDelete b artistId artists hfilm).1,
    fun hfilm => deleteArtistCore_filmography_fail failDelete b artistId artists hfilm⟩

def C4bucket : Bucket :=
  Bucket.mk
    [("data/artists.json",
      R2Obj.mk (R2Body.jsonDoc (JVal.arr [JVal.obj [("id", JVal.str "a"), ("name", JVal.str "A")]]))
        "application/json"),
     ("artists/a/photos/p1.png", R2Obj.mk (R2Body.bytes [3]) "image/png")]

/-- C4 counterexample: with a delete oracle that throws exactly on the
filmography document key, deleteArtist answers 500, not success — the
filmography-delete error is not swallowed. -/
theorem C4_cleanup_error_propagation_counterexample :
    (deleteArtist (fun k => k == filmographyKey "a") C4bucket "a").1.status = 500 ∧
    (deleteArtist (fun k => k == filmographyKey "a") C4bucket "a").1.body
      = JVal.obj [("error", JVal.str "Failed to delete artist")] := by
  exact ⟨rfl, rfl⟩

theorem C4_cleanup_error_propagation_witness :
    (deleteArtist (fun k => k == "artists/a/photos/p1.png") C4bucket "a").1
      = okJson successBody ∧
    (deleteArtist (fun k => k == filmographyKey "a") C4bucket "a").1
      = errJson 500 "Failed to delete artist" :=
  ⟨(C4_cleanup_error_propagation (fun k => k == "artists/a/photos/p1.png") C4bucket "a"
      [JVal.obj [("id", JVal.str "a"), ("name", JVal.str "A")]] rfl).1 rfl,
   ((C4_cleanup_error_propagation (fun k => k == filmographyKey "a") C4bucket "a"
      [JVal.obj [("id", JVal.str "a"), ("name", JVal.str "A")]] rfl).2 rfl).1⟩

/-- C10: deleting an artist id that is in no record does not 404: it answers
the 200 success body, the collection written back is element-wise equal to
the one read, and a second identical delete leaves the same stored
collection. -/
theorem C10_deleteArtist_unknown_id_succeeds (failDelete : String → Bool) (b : Bucket)
    (artistId : String) (artists : List JVal)
    (hdoc : getR2Object b "data/artists.json" = ReadResult.doc (JVal.arr artists))
    (habsent : ∀ a ∈ artists, idMatches a artistId = false)
    (hfilm : failDelete (filmographyKey artistId) = false) :
    (deleteArtist failDelete b artistId).1 = okJson successBody ∧
    getR2Object (deleteArtist failDelete b artistId).2 "data/artists.json"
      = ReadResult.doc (JVal.arr artists) ∧
    getR2Object (deleteArtist failDelete (deleteArtist failDelete b artistId).2 artistId).2
      "data/artists.json" = ReadResult.doc (JVal.arr artists) := by
  have hfilter : artists.filter (fun a => !(idMatches a artistId)) = artists :=
    filter_of_all_true _ _ (fun a ha => by simp [habsent a ha])
  have step : ∀ bb : Bucket,
      getR2Object bb "data/artists.json" = ReadResult.doc (JVal.arr artists) →
      (deleteArtist failDelete bb artistId).1 = okJson successBody ∧
      getR2Object (deleteArtist failDelete bb artistId).2 "data/artists.json"
        = ReadResult.doc (JVal.arr artists) := by
    intro bb hbb
    rw [deleteArtist_eq_core failDelete bb artistId artists hbb]
    have h := deleteArtistCore_ok failDelete bb artistId artists hfilm
    rw [hfilter] at h
    exact h
  obtain ⟨h1, h2⟩ := step b hdoc
  obtain ⟨h3, h4⟩ := step _ h2
  exact ⟨h1, h2, h4⟩

def C10bucket : Bucket :=
  Bucket.mk [("data/artists.json",
    R2Obj.mk (R2Body.jsonDoc (JVal.arr [JVal.obj [("id", JVal.str "a"), ("name", JVal.str "A")]]))
      "application/json")]

theorem C10_deleteArtist_unknown_id_succeeds_witness :
    (deleteArtist (fun _ => false) C10bucket "zz").1 = okJson successBody ∧
    getR2Object (deleteArtist (fun _ => false) C10bucket "zz").2 "data/artists.json"
      = ReadResult.doc (JVal.arr [JVal.obj [("id", JVal.str "a"), ("name", JVal.str "A")]]) ∧
    getR2Object (deleteArtist (fun _ => false)
        (deleteArtist (fun _ => false) C10bucket "zz").2 "zz").2 "data/artists.json"
      = ReadResult.doc (JVal.arr [JVal.obj [("id", JVal.str "a"), ("name", JVal.str "A")]]) :=
  C10_deleteArtist_unknown_id_succeeds (fun _ => false) C10bucket "zz"
    [JVal.obj [("id", JVal.str "a"), ("name", JVal.str "A")]] rfl (by decide) rfl

theorem C2_updateArtist_unknown_id_404_no_write_witness :
    (updateArtist C2bucket "zz" (JVal.obj [("name", JVal.str "New")]) "t1").1.status = 404 ∧
    (updateArtist C2bucket "zz" (JVal.obj [("name", JVal.str "New")]) "t1").2 = C2bucket :=
  C2_updateArtist_unknown_id_404_no_write C2bucket "zz" (JVal.obj [("name", JVal.str "New")])
    "t1" [JVal.obj [("id", JVal.str "a"), ("name", JVal.str "Kim")]] rfl (by decide)

/-- C5 (corrected): the stored key always ends in the computed extension and
the response carries the generated id and the constructed URL, but the
default extension applies only when `split(".").pop()` is empty — an empty
filename or one ending in a dot.  A dotless filename yields the whole
filename as the extension, not the default. -/
theorem C5_uploadPhoto_key_and_response (b : Bucket) (artistId photoId : String)
    (f : UploadedFile) :
    (uploadPhoto b artistId (some f) photoId).1.status = 200 ∧
    Bucket.get (uploadPhoto b artistId (some f) photoId).2
      (photoKey artistId photoId (fileExtensionOf f.name))
      = some (R2Obj.mk (R2Body.bytes f.content) f.type) ∧
    JVal.getProp (uploadPhoto b artistId (some f) photoId).1.body "photoId"
      = some (JVal.str photoId) ∧
    JVal.getProp (uploadPhoto b artistId (some f) photoId).1.body "url"
      = some (JVal.str (getR2ObjectUrl (photoKey artistId photoId (fileExtensionOf f.name)))) ∧
    ((jsSplit f.name (Char.ofNat 46)).getLastD "" = "" → fileExtensionOf f.name = "jpg") ∧
    ((jsSplit f.name (Char.ofNat 46)).getLastD "" ≠ "" →
      fileExtensionOf f.name = (jsSplit f.name (Char.ofNat 46)).getLastD "") := by
  refine ⟨rfl, Bucket.get_put_self b _ _, rfl, rfl, ?_, ?_⟩
  · intro he
    simp only [fileExtensionOf]
    rw [if_pos he]
  · intro he
    simp only [fileExtensionOf]
    rw [if_neg he]

/-- C5 counterexample: the dotless filename "photo" is stored with extension
"photo", not the fixed default: the key ends in ".photo" and nothing sits at
the ".jpg" key. -/
theorem C5_uploadPhoto_dotless_counterexample :
    fileExtensionOf "photo" = "photo" ∧
    Bucket.get (uploadPhoto (Bucket.mk []) "a"
        (some (UploadedFile.mk "photo" "image/png" [7])) "p1").2
      "artists/a/photos/p1.photo" = some (R2Obj.mk (R2Body.bytes [7]) "image/png") ∧
    Bucket.get (uploadPhoto (Bucket.mk []) "a"
        (some (UploadedFile.mk "photo" "image/png" [7])) "p1").2
      "artists/a/photos/p1.jpg" = none :=
  ⟨rfl, rfl, rfl⟩

theorem C5_uploadPhoto_key_and_response_witness :
    Bucket.get (uploadPhoto (Bucket.mk []) "a"
        (some (UploadedFile.mk "b.png" "image/png" [1])) "p").2
      (photoKey "a" "p" (fileExtensionOf "b.png"))
      = some (R2Obj.mk (R2Body.bytes [1]) "image/png") ∧
    fileExtensionOf "b.png" = "png" := by
  have h := C5_uploadPhoto_key_and_response (Bucket.mk []) "a" "p"
    (UploadedFile.mk "b.png" "image/png" [1])
  exact ⟨h.2.1, (h.2.2.2.2.2 (by decide)).trans (by decide)⟩

/-- C9: setMainPhoto answers 404 exactly when no stored key starts with the
artist+photo-id prefix; otherwise it duplicates body and content type of the
first matching object to the fixed `.jpg` main-photo key and answers the
success body. -/
theorem C9_setMainPhoto_first_match_copy (b : Bucket) (artistId photoId : String) :
    ((setMainPhoto b artistId photoId).1.status = 404 ↔
      Bucket.list b ("artists/" ++ artistId ++ "/photos/" ++ photoId) = []) ∧
    (∀ o rest, Bucket.list b ("artists/" ++ artistId ++ "/photos/" ++ photoId) = o :: rest →
      setMainPhoto b artistId photoId
        = (okJson successBody,
           Bucket.put b (mainPhotoKey artistId) (R2Obj.mk o.2.body o.2.contentType))) := by
  cases hl : Bucket.list b ("artists/" ++ artistId ++ "/photos/" ++ photoId) with
  | nil =>
    constructor
    · simp [setMainPhoto, hl, errJson]
    · intro o rest h
      exact absurd h (by simp)
  | cons first rest =>
    have hlf : b.objects.filter
        (fun p => strStartsWith p.1 ("artists/" ++ artistId ++ "/photos/" ++ photoId))
        = first :: rest := hl
    have hget : Bucket.get b first.1 = some first.2 :=
      lookup_head_of_filter b.objects _ first rest hlf
    have hres : setMainPhoto b artistId photoId
        = (okJson successBody,
           Bucket.put b (mainPhotoKey artistId)
             (R2Obj.mk first.2.body first.2.contentType)) := by
      simp [setMainPhoto, hl, hget]
    constructor
    · rw [hres]
      simp [okJson]
    · intro o rest2 h
      injection h with h1 h2
      rw [hres, ← h1]

def C9bucket : Bucket :=
  Bucket.mk [("artists/a/photos/p1.png", R2Obj.mk (R2Body.bytes [3]) "image/png")]

theorem C9_setMainPhoto_first_match_copy_witness :
    ((setMainPhoto C9bucket "a" "p1").1.status = 404 ↔
      Bucket.list C9bucket ("artists/" ++ "a" ++ "/photos/" ++ "p1") = []) ∧
    setMainPhoto C9bucket "a" "p1"
      = (okJson successBody,
         Bucket.put C9bucket (mainPhotoKey "a") (R2Obj.mk (R2Body.bytes [3]) "image/png")) :=
  ⟨(C9_setMainPhoto_first_match_copy C9bucket "a" "p1").1,
   (C9_setMainPhoto_first_match_copy C9bucket "a" "p1").2
     ("artists/a/photos/p1.png", R2Obj.mk (R2Body.bytes [3]) "image/png") [] rfl⟩

/-- C8 (corrected): createArtist answers with the new id and writes back the
base list obtained from the getArtists response with exactly the one new
record appended at the end; prior records keep their order, but each prior
record passes through the main-photo attachment of the list handler, so a
record may gain a mainPhoto field rather than being written back verbatim. -/
theorem C8_createArtist_appends (b : Bucket) (artistData : JVal)
    (artistId now name : String) (artists : List JVal)
    (hdoc : getR2Object b "data/artists.json" = ReadResult.doc (JVal.arr artists))
    (hname : JVal.getProp artistData "name" = some (JVal.str name)) :
    (createArtist b artistData artistId now).1
      = okJson (JVal.obj [("success", JVal.bool true), ("artistId", JVal.str artistId)]) ∧
    getR2Object (createArtist b artistData artistId now).2 "data/artists.json"
      = ReadResult.doc (JVal.arr (artists.map (attachMainPhoto b)
          ++ [JVal.obj [("id", JVal.str artistId), ("name", JVal.str name),
               ("createdAt", JVal.str now), ("updatedAt", JVal.str now)]])) := by
  have hga : (getArtists b).1.body = JVal.arr (artists.map (attachMainPhoto b)) := by
    simp [getArtists, hdoc, okJson]
  constructor
  · simp [createArtist, hga, hname, okJson]
  · simp only [createArtist, hga, hname, Option.getD_some]
    cases hf : JVal.getProp artistData "filmography" with
    | none => simp [getR2Object_put_self]
    | some f =>
      by_cases ht : JVal.truthy f = true
      · simp only [ht, if_true]
        rw [getR2Object_put_ne _ _ _ _ (Ne.symm (filmographyKey_ne_artistsJson artistId))]
        simp [getR2Object_put_self]
      · simp only [ht]
        simp [getR2Object_put_self]

def C8artist : JVal := JVal.obj [("id", JVal.str "a"), ("name", JVal.str "A")]

def C8bucket : Bucket :=
  Bucket.mk
    [("data/artists.json",
      R2Obj.mk (R2Body.jsonDoc (JVal.arr [C8artist])) "application/json"),
     ("artists/a/main.jpg", R2Obj.mk (R2Body.bytes [9]) "image/jpeg")]

/-- C8 counterexample: when a prior artist has a stored main photo but no
mainPhoto field in its record, createArtist writes that record back CHANGED —
it gains a mainPhoto URL field from the list-handler base — so the claim that
all prior records are preserved fails. -/
theorem C8_createArtist_appends_counterexample :
    getR2Object (createArtist C8bucket (JVal.obj [("name", JVal.str "Kim")]) "n1" "t1").2
      "data/artists.json"
      = ReadResult.doc (JVal.arr
          [JVal.obj [("id", JVal.str "a"), ("name", JVal.str "A"),
            ("mainPhoto", JVal.str "https://your-r2-domain.com/artists/a/main.jpg")],
           JVal.obj [("id", JVal.str "n1"), ("name", JVal.str "Kim"),
            ("createdAt", JVal.str "t1"), ("updatedAt", JVal.str "t1")]]) ∧
    JVal.obj [("id", JVal.str "a"), ("name", JVal.str "A"),
        ("mainPhoto", JVal.str "https://your-r2-domain.com/artists/a/main.jpg")]
      ≠ C8artist := by
  constructor
  · rfl
  · intro h
    simp [C8artist] at h

def C8wbucket : Bucket :=
  Bucket.mk
    [("data/artists.json",
      R2Obj.mk (R2Body.jsonDoc (JVal.arr [JVal.obj [("id", JVal.str "w"), ("name", JVal.str "W")]]))
        "application/json")]

theorem C8_createArtist_appends_witness :
    (createArtist C8wbucket (JVal.obj [("name", JVal.str "Kim")]) "n1" "t1").1
      = okJson (JVal.obj [("success", JVal.bool true), ("artistId", JVal.str "n1")]) ∧
    getR2Object (createArtist C8wbucket (JVal.obj [("name", JVal.str "Kim")]) "n1" "t1").2
      "data/artists.json"
      = ReadResult.doc (JVal.arr
          ([JVal.obj [("id", JVal.str "w"), ("name", JVal.str "W")]].map
              (attachMainPhoto C8wbucket)
            ++ [JVal.obj [("id", JVal.str "n1"), ("name", JVal.str "Kim"),
                 ("createdAt", JVal.str "t1"), ("updatedAt", JVal.str "t1")]])) :=
  C8_createArtist_appends C8wbucket (JVal.obj [("name", JVal.str "Kim")]) "n1" "t1" "Kim"
    [JVal.obj [("id", JVal.str "w"), ("name", JVal.str "W")]] rfl rfl

end Worker
